import Mathlib

/-!
Verification of the tiered rate-limit resolution policy implemented by the
`injectRateLimits` Fastify plugin in
`src/backend/src/server/plugins/inject-rate-limits.ts`.

The plugin's `onRequest` hook reads the instance rate limiter configuration
once, then: for unauthenticated requests it attaches that snapshot unchanged;
for authenticated requests it fetches the organization's plan, attaches the
snapshot unchanged when `plan.customRateLimits && !appCfg.isCloud`, and
otherwise attaches a per-field null-coalescing merge of `plan.rateLimits`
over the snapshot.

Modelling choices:
  - JavaScript nullability (`null` / `undefined`) of each threshold is
    `Option Nat`; the optional chaining `rateLimits?.field` is `Option.bind`
    and `x ?? y` is the `coalesce` function below.
  - The registry is a stream `Nat → RateLimitConfig` giving the snapshot
    returned by the k-th call to `getRateLimiterConfig`; the hook performs
    exactly one such call, and the returned pair records the number of reads.
  - `getPlan` may fail; it is an oracle `String → Except LicenseError Plan`
    and the hook's result is `Except LicenseError RateLimitConfig`: an `ok`
    value is the rate-limit set attached to the request, an `error` is the
    fault propagated to the request pipeline (no limits attached).
-/

/-- The shape of the instance rate limiter configuration and of the resolved
per-request rate limits: one threshold per category, each possibly null. -/
structure RateLimitConfig where
  readLimit : Option Nat
  publicEndpointLimit : Option Nat
  writeLimit : Option Nat
  secretsLimit : Option Nat
  authRateLimit : Option Nat
  inviteUserRateLimit : Option Nat
  mfaRateLimit : Option Nat
  creationLimit : Option Nat
deriving DecidableEq, Repr

/-- The rate-limit categories of the data model. -/
inductive RateLimitCategory where
  | read
  | write
  | publicEndpoint
  | secrets
  | auth
  | inviteUser
  | mfa
  | creation
deriving DecidableEq, Repr

/-- The threshold a configuration holds for a given category. -/
def RateLimitConfig.category (c : RateLimitConfig) : RateLimitCategory → Option Nat
  | RateLimitCategory.read => c.readLimit
  | RateLimitCategory.write => c.writeLimit
  | RateLimitCategory.publicEndpoint => c.publicEndpointLimit
  | RateLimitCategory.secrets => c.secretsLimit
  | RateLimitCategory.auth => c.authRateLimit
  | RateLimitCategory.inviteUser => c.inviteUserRateLimit
  | RateLimitCategory.mfa => c.mfaRateLimit
  | RateLimitCategory.creation => c.creationLimit

/-- An organization's subscription plan as read by the resolver:
the `customRateLimits` entitlement flag and the optional per-category
overrides (the record itself and every field may be null). -/
structure Plan where
  customRateLimits : Bool
  rateLimits : Option RateLimitConfig
deriving DecidableEq, Repr

/-- The auth context attached to a request by upstream authentication. -/
structure AuthContext where
  orgId : String
deriving DecidableEq, Repr

/-- The deployment configuration read via `getConfig()`. -/
structure AppConfig where
  isCloud : Bool
deriving DecidableEq, Repr

/-- A failure signalled by the licensing collaborator `getPlan`. -/
structure LicenseError where
  msg : String
deriving DecidableEq, Repr

/-- The JavaScript null-coalescing operator `a ?? b`. -/
def coalesce {α : Type} (a b : Option α) : Option α :=
  match a with
  | some v => some v
  | none => b

@[simp] theorem coalesce_some {α : Type} (v : α) (b : Option α) :
    coalesce (some v) b = some v := rfl

@[simp] theorem coalesce_none {α : Type} (b : Option α) :
    coalesce none b = b := rfl

/-- The object literal assigned to `req.rateLimits` in the merged branch:
each field is `rateLimits?.field ?? instanceRateLimiterConfig.field`. -/
def mergeRateLimits (rateLimits : Option RateLimitConfig)
    (instanceRateLimiterConfig : RateLimitConfig) : RateLimitConfig :=
  { readLimit :=
      coalesce (rateLimits.bind fun rl => rl.readLimit)
        instanceRateLimiterConfig.readLimit
    publicEndpointLimit :=
      coalesce (rateLimits.bind fun rl => rl.publicEndpointLimit)
        instanceRateLimiterConfig.publicEndpointLimit
    writeLimit :=
      coalesce (rateLimits.bind fun rl => rl.writeLimit)
        instanceRateLimiterConfig.writeLimit
    secretsLimit :=
      coalesce (rateLimits.bind fun rl => rl.secretsLimit)
        instanceRateLimiterConfig.secretsLimit
    authRateLimit :=
      coalesce (rateLimits.bind fun rl => rl.authRateLimit)
        instanceRateLimiterConfig.authRateLimit
    inviteUserRateLimit :=
      coalesce (rateLimits.bind fun rl => rl.inviteUserRateLimit)
        instanceRateLimiterConfig.inviteUserRateLimit
    mfaRateLimit :=
      coalesce (rateLimits.bind fun rl => rl.mfaRateLimit)
        instanceRateLimiterConfig.mfaRateLimit
    creationLimit :=
      coalesce (rateLimits.bind fun rl => rl.creationLimit)
        instanceRateLimiterConfig.creationLimit }

/-- The merge acts on each category independently. -/
theorem mergeRateLimits_category (rateLimits : Option RateLimitConfig)
    (inst : RateLimitConfig) (cat : RateLimitCategory) :
    (mergeRateLimits rateLimits inst).category cat
      = coalesce (rateLimits.bind fun rl => rl.category cat) (inst.category cat) := by
  cases cat <;> rfl

/-- One `onRequest` evaluation of the `injectRateLimits` hook.
`registry k` is the snapshot returned by the k-th call to
`getRateLimiterConfig`; the second component of the result counts those
calls.  An `ok` result is the value assigned to `req.rateLimits`; an
`error` result is a `getPlan` failure propagating out of the hook. -/
def injectRateLimits (registry : Nat → RateLimitConfig) (appCfg : AppConfig)
    (auth : Option AuthContext)
    (getPlan : String → Except LicenseError Plan) :
    Except LicenseError RateLimitConfig × Nat :=
  let instanceRateLimiterConfig := registry 0
  match auth with
  | none =>
    -- for public endpoints, we always use the instance-wide default rate limits
    (Except.ok instanceRateLimiterConfig, 1)
  | some a =>
    match getPlan a.orgId with
    | Except.error e => (Except.error e, 1)
    | Except.ok plan =>
      let rateLimits := plan.rateLimits
      if plan.customRateLimits && !appCfg.isCloud then
        -- self-hosted/dedicated custom limits come from admin configuration
        (Except.ok instanceRateLimiterConfig, 1)
      else
        -- null coalescing handles outdated licenses
        (Except.ok (mergeRateLimits rateLimits instanceRateLimiterConfig), 1)

/-- In the merged branch the hook attaches exactly the per-category merge of
the plan overrides over the first registry snapshot. -/
theorem injectRateLimits_merged
    (registry : Nat → RateLimitConfig) (appCfg : AppConfig)
    (a : AuthContext) (getPlan : String → Except LicenseError Plan)
    (plan : Plan)
    (hg : getPlan a.orgId = Except.ok plan)
    (hcond : (plan.customRateLimits && !appCfg.isCloud) = false) :
    (injectRateLimits registry appCfg (some a) getPlan).fst
      = Except.ok (mergeRateLimits plan.rateLimits (registry 0)) := by
  simp [injectRateLimits, hg, hcond]

/-- A sample registry snapshot with every category populated. -/
def sampleRegistry : RateLimitConfig :=
  { readLimit := some 300
    publicEndpointLimit := some 30
    writeLimit := some 60
    secretsLimit := some 60
    authRateLimit := some 60
    inviteUserRateLimit := some 30
    mfaRateLimit := some 20
    creationLimit := some 30 }

/-- A sample plan override populating only the read category. -/
def sampleReadOnlyLimits : RateLimitConfig :=
  { readLimit := some 9999
    publicEndpointLimit := none
    writeLimit := none
    secretsLimit := none
    authRateLimit := none
    inviteUserRateLimit := none
    mfaRateLimit := none
    creationLimit := none }

/-- Claim C1: for every request with no auth context, the resolver attaches
the registry's current snapshot unchanged, regardless of any plan data. -/
theorem unauthenticated_uses_registry_snapshot
    (registry : Nat → RateLimitConfig) (appCfg : AppConfig)
    (getPlan : String → Except LicenseError Plan) :
    (injectRateLimits registry appCfg none getPlan).fst
      = Except.ok (registry 0) := rfl

/-- Claim C2: on a self-hosted deployment, a plan entitled to custom rate
limits still receives the registry's snapshot unchanged, even if
`plan.rateLimits` is fully populated with different values. -/
theorem selfhosted_custom_uses_registry_snapshot
    (registry : Nat → RateLimitConfig) (appCfg : AppConfig)
    (a : AuthContext) (getPlan : String → Except LicenseError Plan)
    (plan : Plan)
    (hg : getPlan a.orgId = Except.ok plan)
    (hc : plan.customRateLimits = true)
    (hcloud : appCfg.isCloud = false) :
    (injectRateLimits registry appCfg (some a) getPlan).fst
      = Except.ok (registry 0) := by
  simp [injectRateLimits, hg, hc, hcloud]

/-- Witness for C2 at a concrete input: a fully populated plan override on a
self-hosted deployment with customRateLimits set. -/
theorem selfhosted_custom_uses_registry_snapshot_witness :
    (injectRateLimits (fun _ => sampleRegistry) { isCloud := false }
        (some { orgId := "org1" })
        (fun _ => Except.ok
          { customRateLimits := true, rateLimits := some sampleReadOnlyLimits })).fst
      = Except.ok sampleRegistry :=
  selfhosted_custom_uses_registry_snapshot (fun _ => sampleRegistry)
    { isCloud := false } { orgId := "org1" }
    (fun _ => Except.ok
      { customRateLimits := true, rateLimits := some sampleReadOnlyLimits })
    { customRateLimits := true, rateLimits := some sampleReadOnlyLimits }
    rfl rfl rfl

/-- Claim C3: when the merged branch applies (customRateLimits off, or cloud
deployment), each category independently resolves to the plan's override when
that field is present and non-null, and to the registry snapshot's value for
that category otherwise. -/
theorem plan_merge_per_category
    (registry : Nat → RateLimitConfig) (appCfg : AppConfig)
    (a : AuthContext) (getPlan : String → Except LicenseError Plan)
    (plan : Plan)
    (hg : getPlan a.orgId = Except.ok plan)
    (hor : plan.customRateLimits = false ∨ appCfg.isCloud = true) :
    ∀ cat : RateLimitCategory, ∃ out : RateLimitConfig,
      (injectRateLimits registry appCfg (some a) getPlan).fst = Except.ok out ∧
      (∀ v : Nat, plan.rateLimits.bind (fun rl => rl.category cat) = some v →
        out.category cat = some v) ∧
      (plan.rateLimits.bind (fun rl => rl.category cat) = none →
        out.category cat = (registry 0).category cat) := by
  have hcond : (plan.customRateLimits && !appCfg.isCloud) = false := by
    rcases hor with h | h <;> simp [h]
  intro cat
  refine ⟨mergeRateLimits plan.rateLimits (registry 0),
    injectRateLimits_merged registry appCfg a getPlan plan hg hcond, ?_, ?_⟩
  · intro v hv
    rw [mergeRateLimits_category, hv, coalesce_some]
  · intro hn
    rw [mergeRateLimits_category, hn, coalesce_none]

/-- Witness for C3 at a concrete input: cloud deployment, customRateLimits
set, plan overriding only the read category; evaluated at the read category. -/
theorem plan_merge_per_category_witness :
    ∃ out : RateLimitConfig,
      (injectRateLimits (fun _ => sampleRegistry) { isCloud := true }
          (some { orgId := "org1" })
          (fun _ => Except.ok
            { customRateLimits := true,
              rateLimits := some sampleReadOnlyLimits })).fst = Except.ok out ∧
      (∀ v : Nat,
        (some sampleReadOnlyLimits).bind
            (fun rl => rl.category RateLimitCategory.read) = some v →
          out.category RateLimitCategory.read = some v) ∧
      ((some sampleReadOnlyLimits).bind
          (fun rl => rl.category RateLimitCategory.read) = none →
        out.category RateLimitCategory.read
          = ((fun _ => sampleRegistry) 0).category RateLimitCategory.read) :=
  plan_merge_per_category (fun _ => sampleRegistry) { isCloud := true }
    { orgId := "org1" }
    (fun _ => Except.ok
      { customRateLimits := true, rateLimits := some sampleReadOnlyLimits })
    { customRateLimits := true, rateLimits := some sampleReadOnlyLimits }
    rfl (Or.inr rfl) RateLimitCategory.read

/-- Claim C4: whenever the registry snapshot has a non-null threshold for
every category, any rate-limit set the resolver attaches has a non-null
threshold for every category, for any auth state and any plan shape. -/
theorem resolved_limits_complete
    (registry : Nat → RateLimitConfig) (appCfg : AppConfig)
    (auth : Option AuthContext)
    (getPlan : String → Except LicenseError Plan) (out : RateLimitConfig)
    (hreg : ∀ cat : RateLimitCategory, ((registry 0).category cat).isSome = true)
    (hout : (injectRateLimits registry appCfg auth getPlan).fst = Except.ok out) :
    ∀ cat : RateLimitCategory, (out.category cat).isSome = true := by
  intro cat
  match auth with
  | none =>
    simp only [injectRateLimits] at hout
    cases hout
    exact hreg cat
  | some a =>
    match hg : getPlan a.orgId with
    | Except.error e => simp [injectRateLimits, hg] at hout
    | Except.ok plan =>
      cases hcond : plan.customRateLimits && !appCfg.isCloud
      · rw [injectRateLimits_merged registry appCfg a getPlan plan hg hcond] at hout
        cases hout
        rw [mergeRateLimits_category]
        cases hfield : plan.rateLimits.bind fun rl => rl.category cat
        · rw [coalesce_none]
          exact hreg cat
        · rw [coalesce_some]
          rfl
      · simp only [injectRateLimits, hg, hcond, if_true] at hout
        cases hout
        exact hreg cat

/-- Witness for C4 at a concrete input: an unauthenticated request against a
fully populated registry snapshot. -/
theorem resolved_limits_complete_witness :
    (sampleRegistry.category RateLimitCategory.read).isSome = true :=
  resolved_limits_complete (fun _ => sampleRegistry) { isCloud := false } none
    (fun _ => Except.error { msg := "down" }) sampleRegistry
    (fun cat => by cases cat <;> rfl) rfl RateLimitCategory.read

/-- The hook's result depends on the registry only through the first snapshot
read, and on `getPlan` only through its value at the request's organization. -/
theorem injectRateLimits_congr
    (reg1 reg2 : Nat → RateLimitConfig) (appCfg : AppConfig)
    (auth : Option AuthContext)
    (g1 g2 : String → Except LicenseError Plan)
    (hreg : reg1 0 = reg2 0)
    (hplan : ∀ a : AuthContext, auth = some a → g1 a.orgId = g2 a.orgId) :
    injectRateLimits reg1 appCfg auth g1 = injectRateLimits reg2 appCfg auth g2 := by
  cases auth with
  | none => simp [injectRateLimits, hreg]
  | some a => simp [injectRateLimits, hreg, hplan a rfl]

/-- Claim C5: the resolver is a deterministic function of its inputs —
same auth state, same plan returned by `getPlan` for the organization, same
deployment flag and an unchanged registry snapshot yield identical output. -/
theorem resolver_deterministic
    (reg1 reg2 : Nat → RateLimitConfig) (appCfg : AppConfig)
    (auth : Option AuthContext)
    (g1 g2 : String → Except LicenseError Plan)
    (hreg : reg1 0 = reg2 0)
    (hplan : ∀ a : AuthContext, auth = some a → g1 a.orgId = g2 a.orgId) :
    injectRateLimits reg1 appCfg auth g1 = injectRateLimits reg2 appCfg auth g2 :=
  injectRateLimits_congr reg1 reg2 appCfg auth g1 g2 hreg hplan

/-- Witness for C5 at a concrete input: two evaluations with the same
snapshot and the same plan lookup result agree. -/
theorem resolver_deterministic_witness :
    injectRateLimits (fun _ => sampleRegistry) { isCloud := true }
        (some { orgId := "org1" })
        (fun _ => Except.ok
          { customRateLimits := false, rateLimits := some sampleReadOnlyLimits })
      = injectRateLimits (fun _ => sampleRegistry) { isCloud := true }
        (some { orgId := "org1" })
        (fun _ => Except.ok
          { customRateLimits := false, rateLimits := some sampleReadOnlyLimits }) :=
  resolver_deterministic (fun _ => sampleRegistry) (fun _ => sampleRegistry)
    { isCloud := true } (some { orgId := "org1" })
    (fun _ => Except.ok
      { customRateLimits := false, rateLimits := some sampleReadOnlyLimits })
    (fun _ => Except.ok
      { customRateLimits := false, rateLimits := some sampleReadOnlyLimits })
    rfl (fun _ _ => rfl)

/-- Claim C6: a `getPlan` failure on an authenticated request propagates out
of the hook unchanged — no rate limits are attached and no registry default
is substituted. -/
theorem getPlan_failure_propagates
    (registry : Nat → RateLimitConfig) (appCfg : AppConfig)
    (a : AuthContext) (getPlan : String → Except LicenseError Plan)
    (e : LicenseError)
    (hg : getPlan a.orgId = Except.error e) :
    (injectRateLimits registry appCfg (some a) getPlan).fst = Except.error e := by
  simp [injectRateLimits, hg]

/-- Witness for C6 at a concrete input: an unreachable license service. -/
theorem getPlan_failure_propagates_witness :
    (injectRateLimits (fun _ => sampleRegistry) { isCloud := true }
        (some { orgId := "org1" })
        (fun _ => Except.error { msg := "license service unreachable" })).fst
      = Except.error { msg := "license service unreachable" } :=
  getPlan_failure_propagates (fun _ => sampleRegistry) { isCloud := true }
    { orgId := "org1" }
    (fun _ => Except.error { msg := "license service unreachable" })
    { msg := "license service unreachable" } rfl

/-- Merging an entirely missing plan override is the identity on the
registry snapshot. -/
theorem mergeRateLimits_none (inst : RateLimitConfig) :
    mergeRateLimits none inst = inst := rfl

/-- Claim C7: an authenticated request whose plan has `customRateLimits`
off and an entirely missing `rateLimits` record succeeds, and the attached
limits equal the registry snapshot for every category. -/
theorem missing_plan_limits_uses_registry
    (registry : Nat → RateLimitConfig) (appCfg : AppConfig)
    (a : AuthContext) (getPlan : String → Except LicenseError Plan)
    (plan : Plan)
    (hg : getPlan a.orgId = Except.ok plan)
    (hcustom : plan.customRateLimits = false)
    (hnone : plan.rateLimits = none) :
    (injectRateLimits registry appCfg (some a) getPlan).fst
      = Except.ok (registry 0) := by
  rw [injectRateLimits_merged registry appCfg a getPlan plan hg (by simp [hcustom]),
    hnone, mergeRateLimits_none]

/-- Witness for C7 at a concrete input: a plan with a null rateLimits
record on a self-hosted deployment. -/
theorem missing_plan_limits_uses_registry_witness :
    (injectRateLimits (fun _ => sampleRegistry) { isCloud := false }
        (some { orgId := "org1" })
        (fun _ => Except.ok { customRateLimits := false, rateLimits := none })).fst
      = Except.ok sampleRegistry :=
  missing_plan_limits_uses_registry (fun _ => sampleRegistry) { isCloud := false }
    { orgId := "org1" }
    (fun _ => Except.ok { customRateLimits := false, rateLimits := none })
    { customRateLimits := false, rateLimits := none } rfl rfl rfl

/-- Claim C8: the plan lookup happens exactly when the request is
authenticated — an unauthenticated evaluation is independent of the
`getPlan` oracle, while an authenticated evaluation genuinely depends on it. -/
theorem getPlan_called_iff_authenticated
    (registry : Nat → RateLimitConfig) (appCfg : AppConfig) :
    (∀ g1 g2 : String → Except LicenseError Plan,
      injectRateLimits registry appCfg none g1
        = injectRateLimits registry appCfg none g2) ∧
    (∀ a : AuthContext, ∃ g1 g2 : String → Except LicenseError Plan,
      (injectRateLimits registry appCfg (some a) g1).fst
        ≠ (injectRateLimits registry appCfg (some a) g2).fst) := by
  constructor
  · intro g1 g2
    rfl
  · intro a
    refine ⟨fun _ => Except.error { msg := "a" },
      fun _ => Except.error { msg := "b" }, ?_⟩
    simp [injectRateLimits]

/-- Claim C9: on a cloud deployment, the output is independent of the plan's
`customRateLimits` flag — two plans differing only in that flag resolve to
the same result. -/
theorem cloud_ignores_custom_flag
    (registry : Nat → RateLimitConfig) (a : AuthContext)
    (g1 g2 : String → Except LicenseError Plan) (p1 p2 : Plan)
    (h1 : g1 a.orgId = Except.ok p1)
    (h2 : g2 a.orgId = Except.ok p2)
    (hrl : p1.rateLimits = p2.rateLimits) :
    (injectRateLimits registry { isCloud := true } (some a) g1).fst
      = (injectRateLimits registry { isCloud := true } (some a) g2).fst := by
  rw [injectRateLimits_merged registry { isCloud := true } a g1 p1 h1 (by simp),
    injectRateLimits_merged registry { isCloud := true } a g2 p2 h2 (by simp),
    hrl]

/-- Witness for C9 at a concrete input: the same overrides with the custom
flag on and off resolve identically on a cloud deployment. -/
theorem cloud_ignores_custom_flag_witness :
    (injectRateLimits (fun _ => sampleRegistry) { isCloud := true }
        (some { orgId := "org1" })
        (fun _ => Except.ok
          { customRateLimits := true, rateLimits := some sampleReadOnlyLimits })).fst
      = (injectRateLimits (fun _ => sampleRegistry) { isCloud := true }
        (some { orgId := "org1" })
        (fun _ => Except.ok
          { customRateLimits := false, rateLimits := some sampleReadOnlyLimits })).fst :=
  cloud_ignores_custom_flag (fun _ => sampleRegistry) { orgId := "org1" }
    (fun _ => Except.ok
      { customRateLimits := true, rateLimits := some sampleReadOnlyLimits })
    (fun _ => Except.ok
      { customRateLimits := false, rateLimits := some sampleReadOnlyLimits })
    { customRateLimits := true, rateLimits := some sampleReadOnlyLimits }
    { customRateLimits := false, rateLimits := some sampleReadOnlyLimits }
    rfl rfl rfl

/-- Every evaluation of the hook performs exactly one registry read. -/
theorem injectRateLimits_reads_once
    (registry : Nat → RateLimitConfig) (appCfg : AppConfig)
    (auth : Option AuthContext)
    (g : String → Except LicenseError Plan) :
    (injectRateLimits registry appCfg auth g).snd = 1 := by
  cases auth with
  | none => rfl
  | some a =>
    rcases hg : g a.orgId with e | plan
    · simp [injectRateLimits, hg]
    · simp only [injectRateLimits]
      rw [hg]
      split <;> first | rfl | (split <;> rfl)

/-- Claim C10: a single resolution reads the registry exactly once, and the
whole output is drawn from that one snapshot — two registry histories that
agree on the first read give identical results. -/
theorem single_registry_snapshot
    (reg1 reg2 : Nat → RateLimitConfig) (appCfg : AppConfig)
    (auth : Option AuthContext)
    (g : String → Except LicenseError Plan)
    (hreg : reg1 0 = reg2 0) :
    injectRateLimits reg1 appCfg auth g = injectRateLimits reg2 appCfg auth g ∧
    (injectRateLimits reg1 appCfg auth g).snd = 1 :=
  ⟨injectRateLimits_congr reg1 reg2 appCfg auth g g hreg (fun _ _ => rfl),
    injectRateLimits_reads_once reg1 appCfg auth g⟩

/-- Witness for C10 at a concrete input: two registry histories agreeing
only on the first read give the same attached limits, with one read. -/
theorem single_registry_snapshot_witness :
    injectRateLimits (fun _ => sampleRegistry) { isCloud := false } none
        (fun _ => Except.ok { customRateLimits := false, rateLimits := none })
      = injectRateLimits
          (fun k => if k = 0 then sampleRegistry else sampleReadOnlyLimits)
          { isCloud := false } none
          (fun _ => Except.ok { customRateLimits := false, rateLimits := none }) ∧
    (injectRateLimits (fun _ => sampleRegistry) { isCloud := false } none
        (fun _ => Except.ok { customRateLimits := false, rateLimits := none })).snd
      = 1 :=
  single_registry_snapshot (fun _ => sampleRegistry)
    (fun k => if k = 0 then sampleRegistry else sampleReadOnlyLimits)
    { isCloud := false } none
    (fun _ => Except.ok { customRateLimits := false, rateLimits := none }) rfl
